import Mathlib

/-!
Shallow embedding of the discuit-ts API client (src/src/DiscuitClient.ts,
src/src/User.ts (Post class), Comment.ts and types.ts) and proofs about its
session handling, request pipeline and wrapper classes.

HTTP itself is external: each operation takes the server's response as an
explicit argument (headers that matter to the client, the ok flag, the status,
and the already-parsed JSON body), and returns the request it issued, the
client state after response processing, and the call's outcome.
-/

namespace Discuit

/-- JSON values; models bodies built with JSON.stringify of object literals.
Numbers are modelled as integers (all numeric fields of the API are). -/
inductive Json where
  | null : Json
  | bool (b : Bool) : Json
  | num (n : Int) : Json
  | str (s : String) : Json
  | arr (xs : List Json) : Json
  | obj (fields : List (String × Json)) : Json

/-- The mutable fields of the DiscuitClient class: csrfToken and sid start as
null; baseURL is fixed at construction. -/
structure ClientState where
  csrfToken : Option String
  sid : Option String
  baseURL : String
  deriving DecidableEq

/-- JS truthiness of a nullable string: null and the empty string are falsy. -/
def strOptTruthy : Option String → Bool
  | none => false
  | some s => s ≠ ""

/-- JS template-literal rendering of a nullable string: null renders as the
four characters "null". -/
def showNullable : Option String → String
  | none => "null"
  | some s => s

/-! Kernel-computable string primitives over the underlying character lists,
with the semantics of the JS string methods the client uses. -/

/-- Does the first character list start with the second? -/
def charListStartsWith : List Char → List Char → Bool
  | _, [] => true
  | [], _ :: _ => false
  | c :: cs, p :: ps => c == p && charListStartsWith cs ps

/-- JS s.startsWith(pre). -/
def strStartsWith (s pre : String) : Bool :=
  charListStartsWith s.data pre.data

/-- Split a character list on a separator character; like JS split, the
result is never empty and keeps empty segments. -/
def splitCharsAux (sep : Char) : List Char → List Char → List (List Char)
  | [], acc => [acc.reverse]
  | c :: cs, acc =>
      if c == sep then acc.reverse :: splitCharsAux sep cs []
      else splitCharsAux sep cs (c :: acc)

/-- JS s.split(sep) for a one-character separator. -/
def strSplitOn (s : String) (sep : Char) : List String :=
  (splitCharsAux sep s.data []).map fun cs => String.mk cs

/-- JS s.toUpperCase(), for the ASCII method names the client passes. -/
def strToUpper (s : String) : String :=
  String.mk (s.data.map Char.toUpper)

/-- The fallback base URL used when the config carries none. -/
def defaultBaseURL : String := "http://discuit.net/api/"

/-- Models u.replace(re-optional-trailing-slash, "/"): the regex matches an
optional slash at the end of the string, so the replacement leaves a string
ending in "/" unchanged and appends "/" otherwise. -/
def ensureTrailingSlash (u : String) : String :=
  if u.data.getLast? = some '/' then u else u ++ "/"

/-- JS `a || b` on strings: the empty string is falsy and falls through. -/
def jsOrString (a b : String) : String := if a = "" then b else a

/-- The DiscuitClient constructor: baseURL := config.baseURL?.replace(...) ||
"http:/"++"/discuit.net/api/"; csrfToken and sid start null. -/
def mkClient (cfg : Option String) : ClientState :=
  { csrfToken := none
  , sid := none
  , baseURL :=
      match cfg with
      | none => defaultBaseURL
      | some u => jsOrString (ensureTrailingSlash u) defaultBaseURL }

/-- cookie.split(";")[0].split("=")[1] — the value part of the first
semicolon-separated segment of a Set-Cookie string. -/
def parseCookieValue (cookie : String) : String :=
  (strSplitOn ((strSplitOn cookie ';').headD "") '=').getD 1 ""

/-- One iteration of the Set-Cookie loop in handleResponse. -/
def processCookie (st : ClientState) (cookie : String) : ClientState :=
  if strStartsWith cookie "csrftoken=" then
    { st with csrfToken := some (parseCookieValue cookie) }
  else if strStartsWith cookie "SID=" then
    { st with sid := some (parseCookieValue cookie) }
  else st

/-- The parts of an HTTP response the client looks at: the Set-Cookie headers,
the csrf-token header, the ok flag and status, and the parsed JSON body. -/
structure HttpResponse (α : Type) where
  setCookies : List String
  csrfTokenHeader : Option String
  ok : Bool
  status : Nat
  body : α

/-- handleResponse: scan every Set-Cookie entry for csrftoken= and SID=
prefixes, then let a non-empty csrf-token header override the CSRF token. -/
def handleResponse (st : ClientState) (resp : HttpResponse α) : ClientState :=
  let st1 := resp.setCookies.foldl processCookie st
  match resp.csrfTokenHeader with
  | some t => if t = "" then st1 else { st1 with csrfToken := some t }
  | none => st1

/-- The Cookie header value composed on every request: a template literal over
the held sid and csrfToken, rendering null as the text "null". -/
def cookieHeader (st : ClientState) : String :=
  "SID=" ++ showNullable st.sid ++ "; csrftoken=" ++ showNullable st.csrfToken

/-- The request the client hands to fetch: method, resolved URL (before the
query string), appended query parameters, the Cookie header, the optional
X-Csrf-Token header, and the optional JSON body. -/
structure HttpRequest where
  method : String
  url : String
  params : List (String × String)
  cookie : String
  xCsrfToken : Option String
  body : Option Json

/-- Errors a call can end in. All are thrown as plain Error objects in the
source; the HTTP one carries the numeric status, the others their message. -/
inductive ClientError where
  | httpError (status : Nat)
  | errorMsg (msg : String)
  deriving DecidableEq

/-- Outcome of one trip through the private request method: the request that
was issued, the client state after handleResponse, and the typed result. -/
structure RequestResult (α : Type) where
  req : HttpRequest
  state : ClientState
  result : Except ClientError α

/-- Header and URL assembly of the private request method. The URL join
new URL(url, baseURL) is modelled for the only case the client uses: a
relative path (no leading slash, no scheme) against a base ending in a slash,
where it is string concatenation. -/
def buildRequest (st : ClientState) (method url : String)
    (params : List (String × String)) (body : Option Json) : HttpRequest :=
  { method := method
  , url := st.baseURL ++ url
  , params := params
  , cookie := cookieHeader st
  , xCsrfToken :=
      if strToUpper method != "GET" && strOptTruthy st.csrfToken then
        st.csrfToken
      else none
  , body := body }

/-- The private request method: build the request, run handleResponse on the
response, throw an HTTP error when the status is not ok, otherwise return the
parsed body. -/
def request (st : ClientState) (method url : String)
    (params : List (String × String)) (body : Option Json)
    (resp : HttpResponse α) : RequestResult α :=
  let req := buildRequest st method url params body
  let st1 := handleResponse st resp
  if resp.ok then { req := req, state := st1, result := .ok resp.body }
  else { req := req, state := st1, result := .error (.httpError resp.status) }

/-- The initialize method: GET _initial through the request pipeline, then
throw "Initialization failed" when the held csrfToken or sid is still falsy;
otherwise return the bootstrap payload. -/
def initializeClient (st : ClientState) (resp : HttpResponse α) :
    RequestResult α :=
  let r := request st "GET" "_initial" [] none resp
  match r.result with
  | .error e => { r with result := .error e }
  | .ok payload =>
      if !strOptTruthy r.state.csrfToken || !strOptTruthy r.state.sid then
        { r with result := .error (.errorMsg "Initialization failed") }
      else { r with result := .ok payload }

/-! ## The data shapes of types.ts

String-literal unions of the TypeScript source (post type, user group, image
format, ...) are modelled as String: they are erased at runtime and the client
code compares them as strings. TimeString is String. A field typed
`T | null` or `T?` is Option T; null and an absent key are distinguished only
where the client's behavior depends on it (Object.assign, see below). -/

/-- ImageCopyData of types.ts. -/
structure ImageCopyData where
  name : Option String
  width : Int
  height : Int
  boxWidth : Int
  boxHeight : Int
  objectFit : String
  format : String
  url : String
  deriving DecidableEq

/-- ImageData of types.ts. -/
structure ImageData where
  id : String
  format : String
  mimetype : String
  width : Int
  height : Int
  size : Int
  averageColor : String
  url : String
  copies : List ImageCopyData
  deriving DecidableEq

/-- BadgeData of types.ts. -/
structure BadgeData where
  id : Int
  type : String
  deriving DecidableEq

/-- CommunityRuleData of types.ts. -/
structure CommunityRuleData where
  id : Int
  rule : String
  description : Option String
  communityId : String
  zIndex : Int
  createdBy : String
  createdAt : String
  deriving DecidableEq

/-- The anonymous ReportDetails shape nested in CommunityData. -/
structure ReportDetailsData where
  noReports : Int
  noPostReports : Int
  noCommentReports : Int
  deriving DecidableEq

mutual
/-- UserData of types.ts. Mutually recursive with CommunityData through
moddingList, hence a single-constructor inductive rather than a structure. -/
inductive UserData where
  | mk
    (id : String)
    (username : String)
    (email : Option String)
    (emailConfirmedAt : Option String)
    (aboutMe : Option String)
    (points : Int)
    (isAdmin : Bool)
    (proPic : Option ImageData)
    (badges : List BadgeData)
    (noPosts : Int)
    (noComments : Int)
    (createdAt : String)
    (deleted : Bool)
    (deletedAt : Option String)
    (upvoteNotificationsOff : Bool)
    (replyNotificationsOff : Bool)
    (homeFeed : String)
    (rememberFeedSort : Bool)
    (embedsOff : Bool)
    (hideUserProfilePictures : Bool)
    (bannedAt : Option String)
    (isBanned : Bool)
    (notificationsNewCount : Int)
    (moddingList : Option (List CommunityData)) : UserData

/-- CommunityData of types.ts. Mutually recursive with UserData through
mods. -/
inductive CommunityData where
  | mk
    (id : String)
    (userId : String)
    (name : String)
    (nsfw : Bool)
    (about : Option String)
    (noMembers : Int)
    (proPic : ImageData)
    (bannerImage : ImageData)
    (createdAt : String)
    (deletedAt : Option String)
    (isDefault : Option Bool)
    (userJoined : Option Bool)
    (userMod : Bool)
    (mods : List UserData)
    (rules : List CommunityRuleData)
    (reportDetails : Option ReportDetailsData) : CommunityData
end

/-- CommentData of types.ts: the server payload for one comment. -/
structure CommentData where
  id : String
  postId : String
  postPublicId : String
  communityId : String
  communityName : String
  userId : Option String
  username : String
  userGhostId : Option String
  userGroup : String
  userDeleted : Bool
  parentId : Option String
  depth : Int
  noReplies : Int
  noDirectReplies : Int
  ancestors : Option (List String)
  body : String
  upvotes : Int
  downvotes : Int
  createdAt : String
  editedAt : Option String
  contentStripped : Option Bool
  deleted : Bool
  deletedAt : Option String
  deletedAs : Option String
  author : UserData
  isAuthorMuted : Option Bool
  userVoted : Option Bool
  userVotedUp : Option Bool
  postTitle : Option String
  postDeleted : Bool
  postDeletedAs : Option String

/-- The anonymous link shape nested in PostData. -/
structure PostLinkData where
  url : String
  hostname : String
  image : Option ImageData
  deriving DecidableEq

/-- PostData of types.ts: the server payload for one post. The comments field
is declared Comment[] in the source, but the runtime value arriving from
response.json() is raw comment payload data, which the Post constructor wraps
itself; it is therefore modelled as CommentData here. -/
structure PostData where
  id : String
  type : String
  publicId : String
  userId : String
  username : String
  userGhostId : Option String
  userGroup : String
  userDeleted : Bool
  isPinned : Bool
  isPinnedSite : Bool
  communityId : String
  communityName : String
  communityProPic : ImageData
  communityBannerImage : ImageData
  title : String
  body : Option String
  image : Option ImageData
  link : Option PostLinkData
  locked : Bool
  lockedBy : Option String
  lockedByGroup : Option String
  lockedAt : Option String
  upvotes : Int
  downvotes : Int
  hotness : Int
  createdAt : String
  editedAt : Option String
  lastActivityAt : String
  deleted : Bool
  deletedAt : Option String
  deletedBy : Option String
  deletedAs : Option String
  deletedContent : Bool
  deletedContentAs : Option String
  noComments : Int
  comments : Option (List CommentData)
  commentsNext : Option String
  userVoted : Option Bool
  userVotedUp : Option Bool
  isAuthorMuted : Bool
  isCommunityMuted : Bool
  community : Option CommunityData
  author : UserData

/-! ## The wrapper classes

The Comment class (Comment.ts) and the Post class (User.ts) hold a client
reference plus the fields of their payload; both constructors run
Object.assign(this, data). The runtime properties of a wrapper instance are
therefore exactly the client plus the keys present on the payload, under the
payload's key names. -/

/-- The Comment wrapper class of Comment.ts. -/
structure Comment where
  client : ClientState
  id : String
  postId : String
  postPublicId : String
  communityId : String
  communityName : String
  userId : Option String
  username : String
  userGhostId : Option String
  userGroup : String
  userDeleted : Bool
  parentId : Option String
  depth : Int
  noReplies : Int
  noDirectReplies : Int
  ancestors : Option (List String)
  body : String
  upvotes : Int
  downvotes : Int
  createdAt : String
  editedAt : Option String
  contentStripped : Option Bool
  deleted : Bool
  deletedAt : Option String
  deletedAs : Option String
  author : UserData
  isAuthorMuted : Option Bool
  userVoted : Option Bool
  userVotedUp : Option Bool
  postTitle : Option String
  postDeleted : Bool
  postDeletedAs : Option String

/-- The Comment constructor: store the client, then Object.assign(this, data)
copies every key of the payload onto the instance. -/
def mkComment (data : CommentData) (client : ClientState) : Comment :=
  { client := client
  , id := data.id
  , postId := data.postId
  , postPublicId := data.postPublicId
  , communityId := data.communityId
  , communityName := data.communityName
  , userId := data.userId
  , username := data.username
  , userGhostId := data.userGhostId
  , userGroup := data.userGroup
  , userDeleted := data.userDeleted
  , parentId := data.parentId
  , depth := data.depth
  , noReplies := data.noReplies
  , noDirectReplies := data.noDirectReplies
  , ancestors := data.ancestors
  , body := data.body
  , upvotes := data.upvotes
  , downvotes := data.downvotes
  , createdAt := data.createdAt
  , editedAt := data.editedAt
  , contentStripped := data.contentStripped
  , deleted := data.deleted
  , deletedAt := data.deletedAt
  , deletedAs := data.deletedAs
  , author := data.author
  , isAuthorMuted := data.isAuthorMuted
  , userVoted := data.userVoted
  , userVotedUp := data.userVotedUp
  , postTitle := data.postTitle
  , postDeleted := data.postDeleted
  , postDeletedAs := data.postDeletedAs }

/-- Reading a Comment wrapper's payload fields back as a CommentData. -/
def commentDataOf (c : Comment) : CommentData :=
  { id := c.id
  , postId := c.postId
  , postPublicId := c.postPublicId
  , communityId := c.communityId
  , communityName := c.communityName
  , userId := c.userId
  , username := c.username
  , userGhostId := c.userGhostId
  , userGroup := c.userGroup
  , userDeleted := c.userDeleted
  , parentId := c.parentId
  , depth := c.depth
  , noReplies := c.noReplies
  , noDirectReplies := c.noDirectReplies
  , ancestors := c.ancestors
  , body := c.body
  , upvotes := c.upvotes
  , downvotes := c.downvotes
  , createdAt := c.createdAt
  , editedAt := c.editedAt
  , contentStripped := c.contentStripped
  , deleted := c.deleted
  , deletedAt := c.deletedAt
  , deletedAs := c.deletedAs
  , author := c.author
  , isAuthorMuted := c.isAuthorMuted
  , userVoted := c.userVoted
  , userVotedUp := c.userVotedUp
  , postTitle := c.postTitle
  , postDeleted := c.postDeleted
  , postDeletedAs := c.postDeletedAs }

/-- Object.assign(this, src) where src is a Comment wrapper built by the
Comment constructor: every key present on src overwrites the target's. The
source fields that come from optional (question-mark) payload keys are absent
when none, so a none there leaves the target's value in place; all other
fields, client included, are always present on src and always overwrite. -/
def objectAssignComment (target src : Comment) : Comment :=
  { client := src.client
  , id := src.id
  , postId := src.postId
  , postPublicId := src.postPublicId
  , communityId := src.communityId
  , communityName := src.communityName
  , userId := src.userId.orElse fun _ => target.userId
  , username := src.username
  , userGhostId := src.userGhostId.orElse fun _ => target.userGhostId
  , userGroup := src.userGroup
  , userDeleted := src.userDeleted
  , parentId := src.parentId
  , depth := src.depth
  , noReplies := src.noReplies
  , noDirectReplies := src.noDirectReplies
  , ancestors := src.ancestors
  , body := src.body
  , upvotes := src.upvotes
  , downvotes := src.downvotes
  , createdAt := src.createdAt
  , editedAt := src.editedAt
  , contentStripped := src.contentStripped.orElse fun _ => target.contentStripped
  , deleted := src.deleted
  , deletedAt := src.deletedAt
  , deletedAs := src.deletedAs.orElse fun _ => target.deletedAs
  , author := src.author
  , isAuthorMuted := src.isAuthorMuted.orElse fun _ => target.isAuthorMuted
  , userVoted := src.userVoted
  , userVotedUp := src.userVotedUp
  , postTitle := src.postTitle.orElse fun _ => target.postTitle
  , postDeleted := src.postDeleted
  , postDeletedAs := src.postDeletedAs.orElse fun _ => target.postDeletedAs }

/-- The Post wrapper class of User.ts. Its comments field holds Comment
wrapper objects, built by the constructor from the payload's comment data. -/
structure Post where
  client : ClientState
  id : String
  type : String
  publicId : String
  userId : String
  username : String
  userGhostId : Option String
  userGroup : String
  userDeleted : Bool
  isPinned : Bool
  isPinnedSite : Bool
  communityId : String
  communityName : String
  communityProPic : ImageData
  communityBannerImage : ImageData
  title : String
  body : Option String
  image : Option ImageData
  link : Option PostLinkData
  locked : Bool
  lockedBy : Option String
  lockedByGroup : Option String
  lockedAt : Option String
  upvotes : Int
  downvotes : Int
  hotness : Int
  createdAt : String
  editedAt : Option String
  lastActivityAt : String
  deleted : Bool
  deletedAt : Option String
  deletedBy : Option String
  deletedAs : Option String
  deletedContent : Bool
  deletedContentAs : Option String
  noComments : Int
  comments : Option (List Comment)
  commentsNext : Option String
  userVoted : Option Bool
  userVotedUp : Option Bool
  isAuthorMuted : Bool
  isCommunityMuted : Bool
  community : Option CommunityData
  author : UserData

/-- The Post constructor of User.ts: store the client, Object.assign(this,
data), then, when the payload carries comments, replace them with Comment
wrappers around each comment payload. -/
def mkPost (data : PostData) (client : ClientState) : Post :=
  { client := client
  , id := data.id
  , type := data.type
  , publicId := data.publicId
  , userId := data.userId
  , username := data.username
  , userGhostId := data.userGhostId
  , userGroup := data.userGroup
  , userDeleted := data.userDeleted
  , isPinned := data.isPinned
  , isPinnedSite := data.isPinnedSite
  , communityId := data.communityId
  , communityName := data.communityName
  , communityProPic := data.communityProPic
  , communityBannerImage := data.communityBannerImage
  , title := data.title
  , body := data.body
  , image := data.image
  , link := data.link
  , locked := data.locked
  , lockedBy := data.lockedBy
  , lockedByGroup := data.lockedByGroup
  , lockedAt := data.lockedAt
  , upvotes := data.upvotes
  , downvotes := data.downvotes
  , hotness := data.hotness
  , createdAt := data.createdAt
  , editedAt := data.editedAt
  , lastActivityAt := data.lastActivityAt
  , deleted := data.deleted
  , deletedAt := data.deletedAt
  , deletedBy := data.deletedBy
  , deletedAs := data.deletedAs
  , deletedContent := data.deletedContent
  , deletedContentAs := data.deletedContentAs
  , noComments := data.noComments
  , comments := data.comments.map fun cs => cs.map fun cd => mkComment cd client
  , commentsNext := data.commentsNext
  , userVoted := data.userVoted
  , userVotedUp := data.userVotedUp
  , isAuthorMuted := data.isAuthorMuted
  , isCommunityMuted := data.isCommunityMuted
  , community := data.community
  , author := data.author }

/-- Reading a Post wrapper's payload fields back as a PostData; nested Comment
wrappers are read back through commentDataOf. -/
def postDataOf (p : Post) : PostData :=
  { id := p.id
  , type := p.type
  , publicId := p.publicId
  , userId := p.userId
  , username := p.username
  , userGhostId := p.userGhostId
  , userGroup := p.userGroup
  , userDeleted := p.userDeleted
  , isPinned := p.isPinned
  , isPinnedSite := p.isPinnedSite
  , communityId := p.communityId
  , communityName := p.communityName
  , communityProPic := p.communityProPic
  , communityBannerImage := p.communityBannerImage
  , title := p.title
  , body := p.body
  , image := p.image
  , link := p.link
  , locked := p.locked
  , lockedBy := p.lockedBy
  , lockedByGroup := p.lockedByGroup
  , lockedAt := p.lockedAt
  , upvotes := p.upvotes
  , downvotes := p.downvotes
  , hotness := p.hotness
  , createdAt := p.createdAt
  , editedAt := p.editedAt
  , lastActivityAt := p.lastActivityAt
  , deleted := p.deleted
  , deletedAt := p.deletedAt
  , deletedBy := p.deletedBy
  , deletedAs := p.deletedAs
  , deletedContent := p.deletedContent
  , deletedContentAs := p.deletedContentAs
  , noComments := p.noComments
  , comments := p.comments.map fun cs => cs.map commentDataOf
  , commentsNext := p.commentsNext
  , userVoted := p.userVoted
  , userVotedUp := p.userVotedUp
  , isAuthorMuted := p.isAuthorMuted
  , isCommunityMuted := p.isCommunityMuted
  , community := p.community
  , author := p.author }

/-! ## Client operations -/

/-- Map the typed result of a call, keeping request and state. -/
def mapResult (r : RequestResult α) (f : α → β) : RequestResult β :=
  { req := r.req, state := r.state, result := r.result.map f }

/-- JS `a || b` where a is a nullable string: undefined and the empty string
fall through to b. -/
def jsOrOptString (a : Option String) (b : String) : String :=
  match a with
  | some s => jsOrString s b
  | none => b

/-- One optional key of a JSON.stringify object literal: an undefined value is
dropped from the serialized object. -/
def jsonFieldOpt (k : String) (v : Option String) : List (String × Json) :=
  match v with
  | some s => [(k, Json.str s)]
  | none => []

/-- getPost: GET posts/(id), wrap the payload in a fresh Post. -/
def getPost (st : ClientState) (id : String) (resp : HttpResponse PostData) :
    RequestResult Post :=
  let r := request st "GET" ("posts/" ++ id) [] none resp
  mapResult r fun d => mkPost d r.state

/-- upvotePost: POST _postVote with body postId and up true, wrap the returned
payload in a fresh Post. -/
def upvotePost (st : ClientState) (id : String) (resp : HttpResponse PostData) :
    RequestResult Post :=
  let r := request st "POST" "_postVote" []
    (some (Json.obj [("postId", Json.str id), ("up", Json.bool true)])) resp
  mapResult r fun d => mkPost d r.state

/-- downvotePost: POST _postVote with body postId and up false, wrap the
returned payload in a fresh Post. -/
def downvotePost (st : ClientState) (id : String)
    (resp : HttpResponse PostData) : RequestResult Post :=
  let r := request st "POST" "_postVote" []
    (some (Json.obj [("postId", Json.str id), ("up", Json.bool false)])) resp
  mapResult r fun d => mkPost d r.state

/-- deletePost: DELETE posts/(id) with query deleteAs (defaulted to "normal"
by JS or) and deleteContent ("true"/"false" by JS conditional). -/
def deletePost (st : ClientState) (id : String) (deleteAs : Option String)
    (deleteContent : Option Bool) (resp : HttpResponse PostData) :
    RequestResult Post :=
  let r := request st "DELETE" ("posts/" ++ id)
    [ ("deleteAs", jsOrOptString deleteAs "normal")
    , ("deleteContent", if deleteContent.getD false then "true" else "false") ]
    none resp
  mapResult r fun d => mkPost d r.state

/-- updatePost: PUT posts/(id) with a JSON body of the given title and body;
undefined fields are dropped by JSON.stringify. -/
def updatePost (st : ClientState) (id : String) (title body : Option String)
    (resp : HttpResponse PostData) : RequestResult Post :=
  let r := request st "PUT" ("posts/" ++ id) []
    (some (Json.obj (jsonFieldOpt "title" title ++ jsonFieldOpt "body" body)))
    resp
  mapResult r fun d => mkPost d r.state

/-- upvoteComment: POST _commentVote with body commentId and up true, wrap the
returned payload in a fresh Comment. -/
def upvoteComment (st : ClientState) (id : String)
    (resp : HttpResponse CommentData) : RequestResult Comment :=
  let r := request st "POST" "_commentVote" []
    (some (Json.obj [("commentId", Json.str id), ("up", Json.bool true)])) resp
  mapResult r fun d => mkComment d r.state

/-- downvoteComment: POST _commentVote with body commentId and up false, wrap
the returned payload in a fresh Comment. -/
def downvoteComment (st : ClientState) (id : String)
    (resp : HttpResponse CommentData) : RequestResult Comment :=
  let r := request st "POST" "_commentVote" []
    (some (Json.obj [("commentId", Json.str id), ("up", Json.bool false)])) resp
  mapResult r fun d => mkComment d r.state

/-- deleteComment: DELETE posts/(postId)/comments/(id) with query deleteAs
defaulted to "normal". -/
def deleteComment (st : ClientState) (postId id : String)
    (deleteAs : Option String) (resp : HttpResponse CommentData) :
    RequestResult Comment :=
  let r := request st "DELETE" ("posts/" ++ postId ++ "/comments/" ++ id)
    [("deleteAs", jsOrOptString deleteAs "normal")] none resp
  mapResult r fun d => mkComment d r.state

/-- updateComment: PUT posts/(postId)/comments/(id) with a JSON body holding
the new body. -/
def updateComment (st : ClientState) (postId : String) (body : String)
    (id : String) (resp : HttpResponse CommentData) : RequestResult Comment :=
  let r := request st "PUT" ("posts/" ++ postId ++ "/comments/" ++ id) []
    (some (Json.obj [("body", Json.str body)])) resp
  mapResult r fun d => mkComment d r.state

/-- The options object of getPosts, fields in declaration order. -/
structure GetPostsOptions where
  feed : Option String
  sort : Option String
  filter : Option String
  communityId : Option String
  next : Option String
  limit : Option Int
  deriving DecidableEq

/-- A conditionally-added query parameter: added only when the held value is
truthy (present and non-empty). -/
def optEntry (k : String) (v : Option String) : List (String × String) :=
  match v with
  | some s => if s = "" then [] else [(k, s)]
  | none => []

/-- The params record getPosts assembles, in insertion order: feed and sort
with JS-or defaults, filter, communityId and next only when truthy, and limit
from the option when the number is truthy (nonzero), else "10". -/
def getPostsParams (options : Option GetPostsOptions) : List (String × String) :=
  [ ("feed", jsOrOptString (options.bind fun o => o.feed) "home")
  , ("sort", jsOrOptString (options.bind fun o => o.sort) "latest") ]
  ++ optEntry "filter" (options.bind fun o => o.filter)
  ++ optEntry "communityId" (options.bind fun o => o.communityId)
  ++ optEntry "next" (options.bind fun o => o.next)
  ++ [ ("limit",
        match options.bind fun o => o.limit with
        | some n => if n = 0 then "10" else toString n
        | none => "10") ]

/-- getPosts: GET posts with the assembled params; the feed payload is
returned as-is ( α stands for the union of the two feed response shapes). -/
def getPosts (st : ClientState) (options : Option GetPostsOptions)
    (resp : HttpResponse α) : RequestResult α :=
  request st "GET" "posts" (getPostsParams options) none resp

/-- The argument object of newPost, fields in declaration order. -/
structure NewPostData where
  type : String
  title : String
  community : String
  body : Option String
  link : Option String
  image : Option String
  deriving DecidableEq

/-- The JSON body of newPost: JSON.stringify of a spread of the argument
object, modelled in field declaration order; undefined fields are dropped. -/
def newPostBody (data : NewPostData) : Json :=
  Json.obj
    ([ ("type", Json.str data.type)
     , ("title", Json.str data.title)
     , ("community", Json.str data.community) ]
     ++ jsonFieldOpt "body" data.body
     ++ jsonFieldOpt "link" data.link
     ++ jsonFieldOpt "image" data.image)

/-- Outcome of a call that may throw before issuing any request: req is none
exactly when no request was made. -/
structure MaybeRequestResult (α : Type) where
  req : Option HttpRequest
  state : ClientState
  result : Except ClientError α

/-- newPost: throw a validation error before any network call when type is
"link" with a falsy link or "image" with a falsy image; otherwise POST posts
with the spread body and wrap the returned payload in a fresh Post. -/
def newPost (st : ClientState) (data : NewPostData)
    (resp : HttpResponse PostData) : MaybeRequestResult Post :=
  if data.type = "link" && !strOptTruthy data.link then
    { req := none, state := st
    , result := .error (.errorMsg "Link is required for link posts.") }
  else if data.type = "image" && !strOptTruthy data.image then
    { req := none, state := st
    , result := .error (.errorMsg "Image is required for image posts.") }
  else
    let r := request st "POST" "posts" [] (some (newPostBody data)) resp
    { req := some r.req, state := r.state
    , result := r.result.map fun d => mkPost d r.state }

/-! ## Wrapper action methods

Each method is modelled as self → (inputs) → response → (self after the call,
call outcome). The Post methods of User.ts delegate and return the client's
fresh Post, leaving self untouched; the Comment methods of Comment.ts run
Object.assign(this, returned) and return this, so on success the outcome is
the mutated self. On a thrown error (the await re-raises) self is unchanged
and the error propagates. -/

/-- Post.upvote: return this.client.upvotePost(this.id). -/
def Post.upvote (p : Post) (resp : HttpResponse PostData) :
    Post × RequestResult Post :=
  (p, upvotePost p.client p.id resp)

/-- Post.downvote: return this.client.downvotePost(this.id). -/
def Post.downvote (p : Post) (resp : HttpResponse PostData) :
    Post × RequestResult Post :=
  (p, downvotePost p.client p.id resp)

/-- Post.delete: return this.client.deletePost(this.publicId, deleteAs,
deleteContent). -/
def Post.delete (p : Post) (deleteAs : Option String)
    (deleteContent : Option Bool) (resp : HttpResponse PostData) :
    Post × RequestResult Post :=
  (p, deletePost p.client p.publicId deleteAs deleteContent resp)

/-- Post.edit: return this.client.updatePost(this.id, title ?? this.title,
body ?? (this.body || undefined)). -/
def Post.edit (p : Post) (title body : Option String)
    (resp : HttpResponse PostData) : Post × RequestResult Post :=
  (p, updatePost p.client p.id (some (title.getD p.title))
    (body.orElse fun _ => if strOptTruthy p.body then p.body else none) resp)

/-- Comment.upvote: const c = await this.client.upvoteComment(this.id);
Object.assign(this, c); return this. -/
def Comment.upvote (c : Comment) (resp : HttpResponse CommentData) :
    Comment × RequestResult Comment :=
  let r := upvoteComment c.client c.id resp
  match r.result with
  | .ok returned =>
      let selfAfter := objectAssignComment c returned
      (selfAfter, { req := r.req, state := r.state, result := .ok selfAfter })
  | .error e => (c, { req := r.req, state := r.state, result := .error e })

/-- Comment.downvote: like Comment.upvote through downvoteComment. -/
def Comment.downvote (c : Comment) (resp : HttpResponse CommentData) :
    Comment × RequestResult Comment :=
  let r := downvoteComment c.client c.id resp
  match r.result with
  | .ok returned =>
      let selfAfter := objectAssignComment c returned
      (selfAfter, { req := r.req, state := r.state, result := .ok selfAfter })
  | .error e => (c, { req := r.req, state := r.state, result := .error e })

/-- Comment.delete: assign-and-return-this around
this.client.deleteComment(this.postId, this.id, deleteAs). -/
def Comment.delete (c : Comment) (deleteAs : Option String)
    (resp : HttpResponse CommentData) : Comment × RequestResult Comment :=
  let r := deleteComment c.client c.postId c.id deleteAs resp
  match r.result with
  | .ok returned =>
      let selfAfter := objectAssignComment c returned
      (selfAfter, { req := r.req, state := r.state, result := .ok selfAfter })
  | .error e => (c, { req := r.req, state := r.state, result := .error e })

/-- Comment.edit: assign-and-return-this around
this.client.updateComment(this.postPublicId, body, this.id). -/
def Comment.edit (c : Comment) (body : String)
    (resp : HttpResponse CommentData) : Comment × RequestResult Comment :=
  let r := updateComment c.client c.postPublicId body c.id resp
  match r.result with
  | .ok returned =>
      let selfAfter := objectAssignComment c returned
      (selfAfter, { req := r.req, state := r.state, result := .ok selfAfter })
  | .error e => (c, { req := r.req, state := r.state, result := .error e })

/-! ## Sample payloads, for concrete witnesses and counterexamples -/

/-- A concrete UserData value (fields in declaration order). -/
def sampleUser : UserData :=
  .mk "u1" "alice" none none none 0 false none [] 0 0
    "2024-01-01T00:00:00Z" false none false false "all" false false false
    none false 0 none

/-- A concrete ImageData value. -/
def sampleImage : ImageData :=
  { id := "img1", format := "png", mimetype := "image/png", width := 1
  , height := 1, size := 1, averageColor := "#000000"
  , url := "/images/img1.png", copies := [] }

/-- A concrete PostData value. -/
def samplePostData : PostData :=
  { id := "1", type := "text", publicId := "abc123", userId := "u1"
  , username := "alice", userGhostId := none, userGroup := "normal"
  , userDeleted := false, isPinned := false, isPinnedSite := false
  , communityId := "c1", communityName := "general"
  , communityProPic := sampleImage, communityBannerImage := sampleImage
  , title := "hello world", body := some "text body", image := none
  , link := none, locked := false, lockedBy := none, lockedByGroup := none
  , lockedAt := none, upvotes := 0, downvotes := 0, hotness := 0
  , createdAt := "2024-01-02T00:00:00Z", editedAt := none
  , lastActivityAt := "2024-01-02T00:00:00Z", deleted := false
  , deletedAt := none, deletedBy := none, deletedAs := none
  , deletedContent := false, deletedContentAs := none, noComments := 0
  , comments := none, commentsNext := none, userVoted := none
  , userVotedUp := none, isAuthorMuted := false, isCommunityMuted := false
  , community := none, author := sampleUser }

/-- A concrete CommentData value. -/
def sampleCommentData : CommentData :=
  { id := "cm1", postId := "1", postPublicId := "abc123", communityId := "c1"
  , communityName := "general", userId := some "u1", username := "alice"
  , userGhostId := none, userGroup := "normal", userDeleted := false
  , parentId := none, depth := 0, noReplies := 0, noDirectReplies := 0
  , ancestors := none, body := "nice post", upvotes := 0, downvotes := 0
  , createdAt := "2024-01-03T00:00:00Z", editedAt := none
  , contentStripped := none, deleted := false, deletedAt := none
  , deletedAs := none, author := sampleUser, isAuthorMuted := none
  , userVoted := none, userVotedUp := none, postTitle := none
  , postDeleted := false, postDeletedAs := none }

/-- A 200 response with no cookies and the given body. -/
def okResponse (body : α) : HttpResponse α :=
  { setCookies := [], csrfTokenHeader := none, ok := true, status := 200
  , body := body }

/-- The effect one Set-Cookie entry has on the held sid, mirroring the
branches of processCookie. -/
def updateSidCookie (acc : Option String) (cookie : String) : Option String :=
  if strStartsWith cookie "csrftoken=" then acc
  else if strStartsWith cookie "SID=" then some (parseCookieValue cookie)
  else acc

/-- The sid a list of Set-Cookie entries establishes: the parsed value of the
last SID= entry, none when the list carries no SID= entry. -/
def extractSid (cookies : List String) : Option String :=
  cookies.foldl updateSidCookie none

/-- A held credential that is still unset: the field is null, or holds the
empty string (no usable token). This is exactly when the source's truthiness
test on the field fails. -/
def credentialUnset (o : Option String) : Prop := o = none ∨ o = some ""

instance (o : Option String) : Decidable (credentialUnset o) := by
  unfold credentialUnset
  infer_instance

/-- A 200 response to GET _initial carrying both bootstrap cookies. -/
def respInit : HttpResponse Unit :=
  { setCookies := ["csrftoken=tok1; Path=/", "SID=abc; Path=/; HttpOnly"]
  , csrfTokenHeader := none, ok := true, status := 200, body := () }

/-- A 200 _postVote response whose payload carries five upvotes. -/
def sampleVoteResponse : HttpResponse PostData :=
  okResponse { samplePostData with
    upvotes := 5, userVoted := some true, userVotedUp := some true }

/-- A 200 _commentVote response whose payload carries three upvotes. -/
def sampleCommentVoteResponse : HttpResponse CommentData :=
  okResponse { sampleCommentData with
    upvotes := 3, userVoted := some true, userVotedUp := some true }

/-- A well-formed text-post argument for newPost. -/
def sampleNewPostText : NewPostData :=
  { type := "text", title := "hello world", community := "general"
  , body := some "text body", link := none, image := none }

/-! ## Shared lemmas -/

theorem strAppendAssoc (a b c : String) : a ++ b ++ c = a ++ (b ++ c) := by
  rcases a with ⟨as⟩
  rcases b with ⟨bs⟩
  rcases c with ⟨cs⟩
  show String.mk (as ++ bs ++ cs) = String.mk (as ++ (bs ++ cs))
  rw [List.append_assoc]

theorem processCookie_sid (st : ClientState) (cookie : String) :
    (processCookie st cookie).sid = updateSidCookie st.sid cookie := by
  unfold processCookie updateSidCookie
  split
  · rfl
  · split <;> rfl

theorem foldl_processCookie_sid (cookies : List String) :
    ∀ st : ClientState,
      (cookies.foldl processCookie st).sid
        = cookies.foldl updateSidCookie st.sid := by
  induction cookies with
  | nil => intro st; rfl
  | cons c rest ih =>
      intro st
      simp only [List.foldl_cons]
      rw [ih, processCookie_sid]

theorem handleResponse_sid (st : ClientState) (resp : HttpResponse α) :
    (handleResponse st resp).sid
      = resp.setCookies.foldl updateSidCookie st.sid := by
  unfold handleResponse
  cases resp.csrfTokenHeader with
  | none => exact foldl_processCookie_sid _ _
  | some t =>
      by_cases ht : t = "" <;>
        simp only [ht, if_true, if_false, ite_true, ite_false, ↓reduceIte] <;>
        exact foldl_processCookie_sid _ _

theorem foldl_updateSidCookie (cookies : List String) :
    ∀ init : Option String,
      cookies.foldl updateSidCookie init
        = (extractSid cookies).elim init some := by
  induction cookies with
  | nil => intro init; rfl
  | cons c rest ih =>
      intro init
      simp only [extractSid, List.foldl_cons]
      rw [ih (updateSidCookie init c), ih (updateSidCookie none c)]
      cases hr : extractSid rest with
      | some v => simp [Option.elim]
      | none =>
          simp only [Option.elim]
          unfold updateSidCookie
          split
          · simp [Option.elim]
          · split <;> simp [Option.elim]

theorem handleResponse_sid_elim (st : ClientState) (resp : HttpResponse α) :
    (handleResponse st resp).sid
      = (extractSid resp.setCookies).elim st.sid some := by
  rw [handleResponse_sid, foldl_updateSidCookie]

/-! ## Claim theorems -/

/-- C1: over any sequence of requests on one client, once a response's
Set-Cookie entries establish SID=X, the Cookie header of every request issued
afterwards starts with SID=X, as long as no intervening response carries an
SID entry with a different value. -/
theorem sidCookiePersistence
    (st : ClientState) (resp0 : HttpResponse Unit) (X : String)
    (h0 : extractSid resp0.setCookies = some X)
    (rs : List (HttpResponse Unit))
    (hrs : ∀ r ∈ rs,
      extractSid r.setCookies = none ∨ extractSid r.setCookies = some X)
    (method url : String) (params : List (String × String))
    (body : Option Json) :
    ∃ rest,
      (buildRequest (rs.foldl handleResponse (handleResponse st resp0))
          method url params body).cookie
        = "SID=" ++ X ++ rest := by
  have hstart : (handleResponse st resp0).sid = some X := by
    rw [handleResponse_sid_elim, h0]
    rfl
  have hkeep : ∀ (l : List (HttpResponse Unit)),
      (∀ r ∈ l, extractSid r.setCookies = none
        ∨ extractSid r.setCookies = some X) →
      ∀ acc : ClientState, acc.sid = some X →
        (l.foldl handleResponse acc).sid = some X := by
    intro l
    induction l with
    | nil => intro _ acc hacc; exact hacc
    | cons r rest ih =>
        intro hl acc hacc
        simp only [List.foldl_cons]
        refine ih (fun x hx => hl x (List.mem_cons_of_mem r hx)) _ ?_
        rw [handleResponse_sid_elim]
        rcases hl r (List.mem_cons_self r rest) with h | h <;> rw [h]
        · exact hacc
        · rfl
  have hsid : (rs.foldl handleResponse (handleResponse st resp0)).sid
      = some X := hkeep rs hrs _ hstart
  refine ⟨"; csrftoken="
      ++ showNullable
        (rs.foldl handleResponse (handleResponse st resp0)).csrfToken, ?_⟩
  show cookieHeader (rs.foldl handleResponse (handleResponse st resp0))
      = _
  rw [cookieHeader, hsid]
  rw [strAppendAssoc]
  rfl

/-- Witness for C1 at a concrete trace: a login-style response sets
SID=abc, one later cookie-free response is processed, and the next request's
cookie still starts with SID=abc. -/
theorem sidCookiePersistence_witness :
    ∃ rest,
      (buildRequest
          ([okResponse ()].foldl handleResponse
            (handleResponse (mkClient none) respInit))
          "GET" "posts" [] none).cookie
        = "SID=" ++ "abc" ++ rest := by
  refine sidCookiePersistence (mkClient none) respInit "abc" (by decide)
    [okResponse ()] ?_ "GET" "posts" [] none
  intro r hr
  rw [List.mem_singleton] at hr
  subst hr
  left
  rfl

theorem strOptTruthy_eq_false_iff (o : Option String) :
    strOptTruthy o = false ↔ credentialUnset o := by
  cases o with
  | none => simp [strOptTruthy, credentialUnset]
  | some s => simp [strOptTruthy, credentialUnset]

theorem strOptTruthy_eq_true_iff (o : Option String) :
    strOptTruthy o = true ↔ ¬ credentialUnset o := by
  rw [← strOptTruthy_eq_false_iff]
  cases strOptTruthy o <;> simp

/-- C2: initializeClient issues GET _initial; it ends in the initialization
error exactly when the GET itself succeeded but the held session id or CSRF
token is still unset after response-cookie processing; when both are set it
returns the server's bootstrap payload. -/
theorem initializeContract (st : ClientState) (resp : HttpResponse α) :
    ((initializeClient st resp).req.method = "GET"
      ∧ (initializeClient st resp).req.url = st.baseURL ++ "_initial")
    ∧ ((initializeClient st resp).result
          = .error (.errorMsg "Initialization failed")
        ↔ resp.ok = true
            ∧ (credentialUnset (handleResponse st resp).sid
               ∨ credentialUnset (handleResponse st resp).csrfToken))
    ∧ (resp.ok = true →
        ¬ credentialUnset (handleResponse st resp).sid →
        ¬ credentialUnset (handleResponse st resp).csrfToken →
        (initializeClient st resp).result = .ok resp.body) := by
  cases hok : resp.ok with
  | false =>
      refine ⟨⟨?_, ?_⟩, ?_, ?_⟩ <;>
        simp [initializeClient, request, buildRequest, hok]
  | true =>
      by_cases hcs : strOptTruthy (handleResponse st resp).csrfToken <;>
        by_cases hsd : strOptTruthy (handleResponse st resp).sid <;>
        refine ⟨⟨?_, ?_⟩, ?_, ?_⟩ <;>
        simp_all [initializeClient, request, buildRequest, hok,
          strOptTruthy_eq_true_iff, strOptTruthy_eq_false_iff,
          Bool.not_eq_true]

/-- Witness for C2: a 200 _initial response carrying both the csrftoken and
SID cookies makes initializeClient return the payload. -/
theorem initializeContract_witness :
    (initializeClient (mkClient none) respInit).result = .ok () :=
  (initializeContract (mkClient none) respInit).2.2 rfl (by decide) (by decide)

/-- C3: every request issued through the pipeline carries a Cookie header
composed from the currently held session id and CSRF token; on a fresh client
(both unset) the header embeds the literal text null for each. -/
theorem cookieHeaderComposition (st : ClientState) (method url : String)
    (params : List (String × String)) (body : Option Json)
    (resp : HttpResponse α) :
    (request st method url params body resp).req.cookie
      = "SID=" ++ showNullable st.sid ++ "; csrftoken="
        ++ showNullable st.csrfToken
    ∧ ∀ cfg : Option String,
        (request (mkClient cfg) method url params body resp).req.cookie
          = "SID=null; csrftoken=null" := by
  constructor
  · cases hok : resp.ok <;> simp [request, buildRequest, cookieHeader, hok]
  · intro cfg
    cases hok : resp.ok <;>
      simp [request, buildRequest, cookieHeader, mkClient, showNullable, hok]

/-- C4 counterexample: with the base URL of the claim's scenario configured,
getPost "abc123" resolves against the normalized base, giving
example.org/posts/abc123 — no /api/ segment is inserted; /api/ exists only
inside the fallback default base URL used when no base URL is configured. -/
theorem getPostNoApiBase_counterexample :
    (getPost (mkClient (some "https://example.org")) "abc123"
        (okResponse samplePostData)).req.url
      = "https://example.org/posts/abc123"
    ∧ (getPost (mkClient (some "https://example.org")) "abc123"
        (okResponse samplePostData)).req.url
      ≠ "https://example.org/api/posts/abc123" :=
  ⟨by decide, by decide⟩

/-- C4 amended: with base URL https example.org configured, getPost(id)
issues GET https example.org/posts/(id) — the configured base is only
normalized with a trailing slash, no /api/ base path is appended — and on a
success response the returned wrapper's publicId equals the payload's
publicId (so a payload with publicId "abc123" yields "abc123"). -/
theorem getPostResolvedUrl (id : String) (resp : HttpResponse PostData) :
    (getPost (mkClient (some "https://example.org")) id resp).req.method
        = "GET"
    ∧ (getPost (mkClient (some "https://example.org")) id resp).req.url
        = "https://example.org/posts/" ++ id
    ∧ (resp.ok = true →
        ∃ p, (getPost (mkClient (some "https://example.org")) id resp).result
            = .ok p
          ∧ p.publicId = resp.body.publicId) := by
  refine ⟨?_, ?_, ?_⟩
  · cases hok : resp.ok <;>
      simp [getPost, mapResult, request, buildRequest, hok]
  · have hbase : (mkClient (some "https://example.org")).baseURL
        = "https://example.org/" := by decide
    have hlit : ("https://example.org/" : String) ++ "posts/"
        = "https://example.org/posts/" := by decide
    cases hok : resp.ok <;>
      · simp only [getPost, mapResult, request, buildRequest, hok]
        rw [hbase, ← strAppendAssoc, hlit]
        simp
  · intro hok
    refine ⟨mkPost resp.body
        (handleResponse (mkClient (some "https://example.org")) resp),
      ?_, rfl⟩
    simp [getPost, mapResult, request, hok, Except.map]

/-- Witness for C4's amended theorem at the scenario's concrete input. -/
theorem getPostResolvedUrl_witness :
    ∃ p, (getPost (mkClient (some "https://example.org")) "abc123"
          (okResponse samplePostData)).result = .ok p
      ∧ p.publicId = (okResponse samplePostData).body.publicId :=
  (getPostResolvedUrl "abc123" (okResponse samplePostData)).2.2 rfl

/-- C5: newPost throws its validation error without issuing any request (req
is none and the state is untouched) exactly when the type is "link" with a
falsy link or "image" with a falsy image; any other input issues POST posts
with the spread body. -/
theorem newPostValidation (st : ClientState) (data : NewPostData)
    (resp : HttpResponse PostData) :
    ((newPost st data resp).req = none
      ↔ (data.type = "link" ∧ strOptTruthy data.link = false)
        ∨ (data.type = "image" ∧ strOptTruthy data.image = false))
    ∧ ((newPost st data resp).req = none → (newPost st data resp).state = st)
    ∧ (data.type = "link" → strOptTruthy data.link = false →
        (newPost st data resp).result
          = .error (.errorMsg "Link is required for link posts."))
    ∧ (data.type = "image" → strOptTruthy data.image = false →
        (newPost st data resp).result
          = .error (.errorMsg "Image is required for image posts."))
    ∧ (∀ q, (newPost st data resp).req = some q →
        q.method = "POST" ∧ q.url = st.baseURL ++ "posts"
          ∧ q.body = some (newPostBody data)) := by
  by_cases hl : (data.type = "link" && !strOptTruthy data.link) = true
  · have hl' := hl
    simp only [Bool.and_eq_true, decide_eq_true_eq, Bool.not_eq_true'] at hl'
    refine ⟨?_, ?_, ?_, ?_, ?_⟩
    · simp [newPost, hl, hl']
    · intro _; simp [newPost, hl]
    · intro _ _; simp [newPost, hl]
    · intro h3 _
      rw [hl'.1] at h3
      exact absurd h3 (by decide)
    · intro q hq
      simp [newPost, hl] at hq
  · by_cases hi : (data.type = "image" && !strOptTruthy data.image) = true
    · have hi' := hi
      simp only [Bool.and_eq_true, decide_eq_true_eq, Bool.not_eq_true'] at hi'
      have hnl : ¬ (data.type = "link" ∧ strOptTruthy data.link = false) := by
        intro h
        rw [h.1] at hi'
        exact absurd hi'.1 (by decide)
      refine ⟨?_, ?_, ?_, ?_, ?_⟩
      · simp [newPost, hl, hi, hi', hnl]
      · intro _; simp [newPost, hl, hi]
      · intro h1 h2; exact absurd ⟨h1, h2⟩ hnl
      · intro _ _; simp [newPost, hl, hi]
      · intro q hq
        simp [newPost, hl, hi] at hq
    · have hl' := hl
      have hi' := hi
      simp only [Bool.and_eq_true, decide_eq_true_eq, Bool.not_eq_true',
        not_and] at hl' hi'
      refine ⟨?_, ?_, ?_, ?_, ?_⟩
      · simp only [newPost, hl, hi, if_false, Bool.not_eq_true]
        simp only [Bool.eq_false_iff, ne_eq] at hl hi
        constructor
        · intro h
          cases h
        · rintro (⟨h1, h2⟩ | ⟨h1, h2⟩)
          · exact absurd (by simp [h1, h2]) hl
          · exact absurd (by simp [h1, h2]) hi
      · intro h
        simp [newPost, hl, hi] at h
      · intro h1 h2
        exact absurd (by simp [h1, h2]) hl
      · intro h1 h2
        exact absurd (by simp [h1, h2]) hi
      · intro q hq
        cases hok : resp.ok <;>
          · simp [newPost, hl, hi, request, buildRequest, hok] at hq
            subst hq
            exact ⟨rfl, rfl, rfl⟩

/-- Witness for C5: a text post issues POST posts with the spread body. -/
theorem newPostValidation_witness :
    (buildRequest (mkClient none) "POST" "posts" []
        (some (newPostBody sampleNewPostText))).method = "POST"
    ∧ (buildRequest (mkClient none) "POST" "posts" []
        (some (newPostBody sampleNewPostText))).url
      = (mkClient none).baseURL ++ "posts"
    ∧ (buildRequest (mkClient none) "POST" "posts" []
        (some (newPostBody sampleNewPostText))).body
      = some (newPostBody sampleNewPostText) :=
  (newPostValidation (mkClient none) sampleNewPostText
      (okResponse samplePostData)).2.2.2.2 _ rfl

/-- C6: building a Post wrapper from any server payload and reading every
field back (nested comment wrappers included) returns the payload unchanged:
no field is transformed or lost. -/
theorem postRoundTrip (d : PostData) (cl : ClientState) :
    postDataOf (mkPost d cl) = d := by
  have hcomments :
      ((d.comments.map fun cs => cs.map fun cd => mkComment cd cl).map
        fun cs => cs.map commentDataOf) = d.comments := by
    cases d.comments with
    | none => rfl
    | some l =>
        show some (List.map commentDataOf
          (List.map (fun cd => mkComment cd cl) l)) = some l
        rw [List.map_map]
        exact congrArg some (List.map_id' l)
  simp only [postDataOf, mkPost]
  rw [hcomments]

/-- C7 counterexample: after Post.upvote on a wrapper holding zero upvotes,
with the server returning a payload carrying five upvotes, the wrapper's held
state still shows zero — the action method did not replace the held post
state (the fresh five-upvote wrapper is only in the return value). -/
theorem postUpvoteNoReplace_counterexample :
    (Post.upvote (mkPost samplePostData (mkClient none))
        sampleVoteResponse).fst.upvotes = 0
    ∧ sampleVoteResponse.body.upvotes = 5
    ∧ ((Post.upvote (mkPost samplePostData (mkClient none))
        sampleVoteResponse).snd.result.toOption.map Post.upvotes) = some 5
    ∧ (Post.upvote (mkPost samplePostData (mkClient none))
        sampleVoteResponse).fst.upvotes
      ≠ sampleVoteResponse.body.upvotes :=
  ⟨rfl, rfl, rfl, by decide⟩

/-- C7 amended: a Post wrapper's held state is immutable without exception:
the action methods upvote, downvote, delete and edit leave the wrapper
unchanged and return a fresh Post built from the post the server returned
(replace-the-held-state is the Comment wrapper's behavior, not Post's). -/
theorem postActionsReturnFresh (p : Post) (resp : HttpResponse PostData)
    (da : Option String) (dc : Option Bool) (t b : Option String)
    (h : resp.ok = true) :
    ((Post.upvote p resp).fst = p
      ∧ (Post.upvote p resp).snd.result
          = .ok (mkPost resp.body (handleResponse p.client resp)))
    ∧ ((Post.downvote p resp).fst = p
      ∧ (Post.downvote p resp).snd.result
          = .ok (mkPost resp.body (handleResponse p.client resp)))
    ∧ ((Post.delete p da dc resp).fst = p
      ∧ (Post.delete p da dc resp).snd.result
          = .ok (mkPost resp.body (handleResponse p.client resp)))
    ∧ ((Post.edit p t b resp).fst = p
      ∧ (Post.edit p t b resp).snd.result
          = .ok (mkPost resp.body (handleResponse p.client resp))) := by
  refine ⟨⟨rfl, ?_⟩, ⟨rfl, ?_⟩, ⟨rfl, ?_⟩, ⟨rfl, ?_⟩⟩ <;>
    simp [Post.upvote, Post.downvote, Post.delete, Post.edit, upvotePost,
      downvotePost, deletePost, updatePost, mapResult, request, h,
      Except.map]

/-- Witness for C7's amended theorem: the concrete upvote call leaves the
wrapper untouched. -/
theorem postActionsReturnFresh_witness :
    (Post.upvote (mkPost samplePostData (mkClient none))
        sampleVoteResponse).fst
      = mkPost samplePostData (mkClient none) :=
  ((postActionsReturnFresh (mkPost samplePostData (mkClient none))
      sampleVoteResponse none none none none rfl).1).1

/-- C8: upvotePost and downvotePost both POST to the _postVote endpoint, the
body carrying the post id and up true versus up false, and on success both
return a Post wrapper built from the server's returned payload, whose vote
counts are the payload's. -/
theorem postVoteEndpoints (st : ClientState) (id : String)
    (resp : HttpResponse PostData) :
    ((upvotePost st id resp).req.method = "POST"
      ∧ (upvotePost st id resp).req.url = st.baseURL ++ "_postVote"
      ∧ (upvotePost st id resp).req.body
          = some (Json.obj [("postId", Json.str id), ("up", Json.bool true)]))
    ∧ ((downvotePost st id resp).req.method = "POST"
      ∧ (downvotePost st id resp).req.url = st.baseURL ++ "_postVote"
      ∧ (downvotePost st id resp).req.body
          = some (Json.obj [("postId", Json.str id), ("up", Json.bool false)]))
    ∧ (resp.ok = true →
        (upvotePost st id resp).result
            = .ok (mkPost resp.body (handleResponse st resp))
        ∧ (downvotePost st id resp).result
            = .ok (mkPost resp.body (handleResponse st resp))
        ∧ ∀ p, (upvotePost st id resp).result = .ok p →
            p.upvotes = resp.body.upvotes
              ∧ p.downvotes = resp.body.downvotes) := by
  refine ⟨⟨?_, ?_, ?_⟩, ⟨?_, ?_, ?_⟩, ?_⟩
  · cases hok : resp.ok <;>
      simp [upvotePost, mapResult, request, buildRequest, hok]
  · cases hok : resp.ok <;>
      simp [upvotePost, mapResult, request, buildRequest, hok]
  · cases hok : resp.ok <;>
      simp [upvotePost, mapResult, request, buildRequest, hok]
  · cases hok : resp.ok <;>
      simp [downvotePost, mapResult, request, buildRequest, hok]
  · cases hok : resp.ok <;>
      simp [downvotePost, mapResult, request, buildRequest, hok]
  · cases hok : resp.ok <;>
      simp [downvotePost, mapResult, request, buildRequest, hok]
  · intro hok
    refine ⟨?_, ?_, ?_⟩
    · simp [upvotePost, mapResult, request, hok, Except.map]
    · simp [downvotePost, mapResult, request, hok, Except.map]
    · intro p hp
      simp [upvotePost, mapResult, request, hok, Except.map] at hp
      subst hp
      exact ⟨rfl, rfl⟩

/-- Witness for C8 at a concrete id and success response. -/
theorem postVoteEndpoints_witness :
    (upvotePost (mkClient none) "1" sampleVoteResponse).result
      = .ok (mkPost sampleVoteResponse.body
          (handleResponse (mkClient none) sampleVoteResponse)) :=
  ((postVoteEndpoints (mkClient none) "1" sampleVoteResponse).2.2 rfl).1

/-- C9: on a success response, every Comment action method (upvote, downvote,
delete, edit) refreshes the wrapper in place — the self after the call equals
Object.assign of the server's returned comment onto the old self — and
returns exactly that refreshed self; every Post action method instead leaves
self unchanged and returns a fresh Post built from the server's payload: the
code implements both wrapper variants at once. -/
theorem commentMutatesPostFresh
    (c : Comment) (cresp : HttpResponse CommentData)
    (p : Post) (presp : HttpResponse PostData)
    (da : Option String) (t b : Option String) (nb : String)
    (dc : Option Bool)
    (hc : cresp.ok = true) (hp : presp.ok = true) :
    ((Comment.upvote c cresp).fst
        = objectAssignComment c
            (mkComment cresp.body (handleResponse c.client cresp))
      ∧ (Comment.upvote c cresp).snd.result
          = .ok (Comment.upvote c cresp).fst)
    ∧ ((Comment.downvote c cresp).fst
        = objectAssignComment c
            (mkComment cresp.body (handleResponse c.client cresp))
      ∧ (Comment.downvote c cresp).snd.result
          = .ok (Comment.downvote c cresp).fst)
    ∧ ((Comment.delete c da cresp).fst
        = objectAssignComment c
            (mkComment cresp.body (handleResponse c.client cresp))
      ∧ (Comment.delete c da cresp).snd.result
          = .ok (Comment.delete c da cresp).fst)
    ∧ ((Comment.edit c nb cresp).fst
        = objectAssignComment c
            (mkComment cresp.body (handleResponse c.client cresp))
      ∧ (Comment.edit c nb cresp).snd.result
          = .ok (Comment.edit c nb cresp).fst)
    ∧ ((Post.upvote p presp).fst = p
      ∧ (Post.upvote p presp).snd.result
          = .ok (mkPost presp.body (handleResponse p.client presp)))
    ∧ ((Post.downvote p presp).fst = p
      ∧ (Post.downvote p presp).snd.result
          = .ok (mkPost presp.body (handleResponse p.client presp)))
    ∧ ((Post.delete p da dc presp).fst = p
      ∧ (Post.delete p da dc presp).snd.result
          = .ok (mkPost presp.body (handleResponse p.client presp)))
    ∧ ((Post.edit p t b presp).fst = p
      ∧ (Post.edit p t b presp).snd.result
          = .ok (mkPost presp.body (handleResponse p.client presp))) := by
  refine ⟨⟨?_, ?_⟩, ⟨?_, ?_⟩, ⟨?_, ?_⟩, ⟨?_, ?_⟩, ⟨rfl, ?_⟩, ⟨rfl, ?_⟩,
    ⟨rfl, ?_⟩, ⟨rfl, ?_⟩⟩ <;>
    simp [Comment.upvote, Comment.downvote, Comment.delete, Comment.edit,
      upvoteComment, downvoteComment, deleteComment, updateComment,
      Post.upvote, Post.downvote, Post.delete, Post.edit,
      upvotePost, downvotePost, deletePost, updatePost,
      mapResult, request, hc, hp, Except.map]

/-- Witness for C9: the concrete comment upvote refreshes the wrapper in
place with the three-upvote payload. -/
theorem commentMutatesPostFresh_witness :
    (Comment.upvote (mkComment sampleCommentData (mkClient none))
        sampleCommentVoteResponse).fst
      = objectAssignComment (mkComment sampleCommentData (mkClient none))
          (mkComment sampleCommentVoteResponse.body
            (handleResponse (mkClient none) sampleCommentVoteResponse)) :=
  (commentMutatesPostFresh (mkComment sampleCommentData (mkClient none))
      sampleCommentVoteResponse (mkPost samplePostData (mkClient none))
      sampleVoteResponse none none none "x" none rfl rfl).1.1

/-- C10: getPosts treats limit zero exactly like an omitted limit — the
issued request is identical, and its query carries limit=10 — so an explicit
zero limit is never transmitted. -/
theorem getPostsLimitZeroDefaults (o : GetPostsOptions) (st : ClientState)
    (resp : HttpResponse Unit) :
    (getPosts st (some { o with limit := some 0 }) resp).req
      = (getPosts st (some { o with limit := none }) resp).req
    ∧ ("limit", "10")
        ∈ (getPosts st (some { o with limit := some 0 }) resp).req.params := by
  constructor
  · cases hok : resp.ok <;>
      simp [getPosts, request, buildRequest, getPostsParams, hok]
  · cases hok : resp.ok <;>
      simp [getPosts, request, buildRequest, getPostsParams, hok]

end Discuit
